import Mathlib

/-!
Verification of the dezer serialization core (TypeScript) against its
specification, via a shallow embedding in Lean 4.

The embedding models the JavaScript value universe that the library
manipulates (parsed JSON / YAML documents plus the `undefined` sentinel),
the three error classes, the validation layer (dezer/src/deserializer.ts),
the JSON backend (dezer-json/mod.ts), the YAML backend deserializer half
(the unnamed YAML module), the trait-dispatch entry points, and the
generated code for the example `User` class (examples/model.dezer.ts).

JavaScript numbers are modelled as integers plus the NaN sentinel: the
library touches numbers only through `typeof`, `isNaN`, rendering with
`toString`, and equality, and every number appearing in the verified
properties is an integer literal or NaN.
-/

set_option maxHeartbeats 1000000

/-- JavaScript number: an integer or the NaN sentinel. -/
inductive JsNum where
  | nan : JsNum
  | int : Int → JsNum
deriving DecidableEq, Repr

/-- The value universe the library manipulates: results of JSON.parse or of
the YAML parser, extended with the JavaScript `undefined` sentinel (which
can appear as an object property value and as an absent value). Object
fields are kept in insertion order, as JavaScript string-keyed properties
are. -/
inductive Raw where
  | undef : Raw
  | null : Raw
  | bool : Bool → Raw
  | num : JsNum → Raw
  | str : String → Raw
  | arr : List Raw → Raw
  | obj : List (String × Raw) → Raw

/-- JavaScript typeof operator on the modelled value universe
(typeof null and typeof of any array or object is "object"). -/
def jsTypeof : Raw → String
  | .undef => "undefined"
  | .null => "object"
  | .bool _ => "boolean"
  | .num _ => "number"
  | .str _ => "string"
  | .arr _ => "object"
  | .obj _ => "object"

/-- The error classes of the library: SerializationError and
DeserializationError (dezer core), ValidationError
(dezer/src/deserializer.ts validation layer), and the plain JavaScript
Error class (thrown by serializeUnknown / deserializeUnknown). -/
inductive DezerError where
  | serializationError : String → DezerError
  | deserializationError : String → DezerError
  | validationError : String → DezerError
  | genericError : String → DezerError
deriving DecidableEq, Repr

/-- Whether an error value is an instance of the SerializationError class. -/
def DezerError.isSerializationError : DezerError → Bool
  | .serializationError _ => true
  | _ => false

/-- Whether an error value is an instance of the ValidationError class. -/
def DezerError.isValidationError : DezerError → Bool
  | .validationError _ => true
  | _ => false

/-- validateString from dezer/src/deserializer.ts. -/
def validateString (value : Raw) (fieldPath : String) : Except DezerError String :=
  match value with
  | .str s => .ok s
  | _ =>
    .error (.validationError
      ("Field \x27" ++ fieldPath ++ "\x27 expected string, got " ++ jsTypeof value))

/-- validateNumber from dezer/src/deserializer.ts: typeof check first,
then the NaN rejection. -/
def validateNumber (value : Raw) (fieldPath : String) : Except DezerError JsNum :=
  match value with
  | .num n =>
    if n = JsNum.nan then
      .error (.validationError
        ("Field \x27" ++ fieldPath ++ "\x27 expected valid number, got NaN"))
    else
      .ok n
  | _ =>
    .error (.validationError
      ("Field \x27" ++ fieldPath ++ "\x27 expected number, got " ++ jsTypeof value))

/-- validateBoolean from dezer/src/deserializer.ts. -/
def validateBoolean (value : Raw) (fieldPath : String) : Except DezerError Bool :=
  match value with
  | .bool b => .ok b
  | _ =>
    .error (.validationError
      ("Field \x27" ++ fieldPath ++ "\x27 expected boolean, got " ++ jsTypeof value))

/-- validateArray from dezer/src/deserializer.ts. -/
def validateArray (value : Raw) (fieldPath : String) : Except DezerError (List Raw) :=
  match value with
  | .arr xs => .ok xs
  | _ =>
    .error (.validationError
      ("Field \x27" ++ fieldPath ++ "\x27 expected array, got " ++ jsTypeof value))

/-- validateObject from dezer/src/deserializer.ts: value must be
object-typed, not null and not an array. -/
def validateObject (value : Raw) (fieldPath : String) : Except DezerError (List (String × Raw)) :=
  match value with
  | .obj fs => .ok fs
  | _ =>
    .error (.validationError
      ("Field \x27" ++ fieldPath ++ "\x27 expected object, got " ++ jsTypeof value))

/-- The element loop of validateStringArray: index i is the position of the
head of the remaining list within the whole array. -/
def checkStringElems (fieldPath : String) : List Raw → Nat → Except DezerError Unit
  | [], _ => .ok ()
  | x :: xs, i =>
    match x with
    | .str _ => checkStringElems fieldPath xs (i + 1)
    | _ =>
      .error (.validationError
        ("Field \x27" ++ fieldPath ++ "[" ++ toString i ++ "]\x27 expected string, got "
          ++ jsTypeof x))

/-- validateStringArray from dezer/src/deserializer.ts: validateArray, then
a per-element string check appending the index suffix to the path. -/
def validateStringArray (value : Raw) (fieldPath : String) : Except DezerError (List Raw) := do
  let array ← validateArray value fieldPath
  checkStringElems fieldPath array 0
  pure array

/-- State of a sequence cursor: the backing array and the current index.
Both JsonSeqAccess and YamlSeqAccess carry exactly this state. -/
structure SeqAccessState where
  array : List Raw
  index : Nat

/-- State of a map cursor: the Object.entries snapshot of the backing
object and the current index. Both JsonMapAccess and YamlMapAccess carry
exactly this state. -/
structure MapAccessState where
  entries : List (String × Raw)
  index : Nat

/-- JsonSeqAccess.nextElement (dezer-json/mod.ts): returns undefined once
the index has reached the length, otherwise the element at the index,
post-incrementing the index. -/
def JsonSeqAccess.nextElement (s : SeqAccessState) : Option Raw × SeqAccessState :=
  if s.index ≥ s.array.length then
    (none, s)
  else
    (s.array[s.index]?, { s with index := s.index + 1 })

/-- JsonSeqAccess.sizeHint (dezer-json/mod.ts). -/
def JsonSeqAccess.sizeHint (s : SeqAccessState) : Nat :=
  s.array.length - s.index

/-- JsonMapAccess.nextEntry (dezer-json/mod.ts): returns undefined once the
index has reached the number of entries, otherwise the entry at the index,
post-incrementing the index. -/
def JsonMapAccess.nextEntry (m : MapAccessState) : Option (String × Raw) × MapAccessState :=
  if m.index ≥ m.entries.length then
    (none, m)
  else
    (m.entries[m.index]?, { m with index := m.index + 1 })

/-- JsonMapAccess.nextKey (dezer-json/mod.ts): peeks at the key at the
current index without advancing. -/
def JsonMapAccess.nextKey (m : MapAccessState) : Option String :=
  if m.index ≥ m.entries.length then
    none
  else
    (m.entries[m.index]?).map Prod.fst

/-- JsonMapAccess.nextValue (dezer-json/mod.ts): the value of the entry
just consumed by nextEntry/nextKey bookkeeping. -/
def JsonMapAccess.nextValue (m : MapAccessState) : Option Raw :=
  if 0 < m.index ∧ m.index ≤ m.entries.length then
    (m.entries[m.index - 1]?).map Prod.snd
  else
    none

/-- YamlSeqAccess.nextElement (YAML module): identical code to
JsonSeqAccess.nextElement. -/
def YamlSeqAccess.nextElement (s : SeqAccessState) : Option Raw × SeqAccessState :=
  if s.index ≥ s.array.length then
    (none, s)
  else
    (s.array[s.index]?, { s with index := s.index + 1 })

/-- YamlMapAccess.nextEntry (YAML module): identical code to
JsonMapAccess.nextEntry. -/
def YamlMapAccess.nextEntry (m : MapAccessState) : Option (String × Raw) × MapAccessState :=
  if m.index ≥ m.entries.length then
    (none, m)
  else
    (m.entries[m.index]?, { m with index := m.index + 1 })

/-- Visitor contract (dezer/src/deserializer.ts): one handler per raw
shape; every handler may raise. visitSeq/visitMap receive a fresh cursor
over the raw sequence/mapping; visitEnum receives the raw enum payload
(the EnumAccess wraps exactly the raw value). -/
structure Visitor (α : Type) where
  expecting : String
  visitNull : Except DezerError α
  visitBool : Bool → Except DezerError α
  visitNumber : JsNum → Except DezerError α
  visitString : String → Except DezerError α
  visitBytes : List Nat → Except DezerError α
  visitSeq : SeqAccessState → Except DezerError α
  visitMap : MapAccessState → Except DezerError α
  visitEnum : Raw → Except DezerError α

/-- JsonDeserializer.deserializeAny (dezer-json/mod.ts): dispatch on the
shape of the raw data itself. null and undefined go to visitNull; arrays
are tested before generic objects. -/
def JsonDeserializer.deserializeAny (data : Raw) (visitor : Visitor α) : Except DezerError α :=
  match data with
  | .null => visitor.visitNull
  | .undef => visitor.visitNull
  | .bool b => visitor.visitBool b
  | .num n => visitor.visitNumber n
  | .str s => visitor.visitString s
  | .arr xs => visitor.visitSeq ⟨xs, 0⟩
  | .obj fs => visitor.visitMap ⟨fs, 0⟩

/-- JsonDeserializer.deserializeBool (dezer-json/mod.ts). -/
def JsonDeserializer.deserializeBool (data : Raw) (visitor : Visitor α) : Except DezerError α :=
  match data with
  | .bool b => visitor.visitBool b
  | _ => .error (.deserializationError ("Expected boolean, found " ++ jsTypeof data))

/-- JsonDeserializer.deserializeNumber (dezer-json/mod.ts). -/
def JsonDeserializer.deserializeNumber (data : Raw) (visitor : Visitor α) : Except DezerError α :=
  match data with
  | .num n => visitor.visitNumber n
  | _ => .error (.deserializationError ("Expected number, found " ++ jsTypeof data))

/-- JsonDeserializer.deserializeString (dezer-json/mod.ts). -/
def JsonDeserializer.deserializeString (data : Raw) (visitor : Visitor α) : Except DezerError α :=
  match data with
  | .str s => visitor.visitString s
  | _ => .error (.deserializationError ("Expected string, found " ++ jsTypeof data))

/-- JsonDeserializer.deserializeSeq (dezer-json/mod.ts). -/
def JsonDeserializer.deserializeSeq (data : Raw) (visitor : Visitor α) : Except DezerError α :=
  match data with
  | .arr xs => visitor.visitSeq ⟨xs, 0⟩
  | _ => .error (.deserializationError ("Expected array, found " ++ jsTypeof data))

/-- JsonDeserializer.deserializeMap (dezer-json/mod.ts): the guard is
typeof object, non-null, not an array. -/
def JsonDeserializer.deserializeMap (data : Raw) (visitor : Visitor α) : Except DezerError α :=
  match data with
  | .obj fs => visitor.visitMap ⟨fs, 0⟩
  | _ => .error (.deserializationError ("Expected object, found " ++ jsTypeof data))

/-- JsonDeserializer.deserializeStruct (dezer-json/mod.ts): same guard as
deserializeMap; the struct name only feeds the error message, the field
list is unused. -/
def JsonDeserializer.deserializeStruct (name : String) (_fields : List String)
    (data : Raw) (visitor : Visitor α) : Except DezerError α :=
  match data with
  | .obj fs => visitor.visitMap ⟨fs, 0⟩
  | _ =>
    .error (.deserializationError
      ("Expected object for struct " ++ name ++ ", found " ++ jsTypeof data))

/-- JsonDeserializer.deserializeOption (dezer-json/mod.ts): null or
undefined goes to visitNull, any present value goes through
deserializeAny. -/
def JsonDeserializer.deserializeOption (data : Raw) (visitor : Visitor α) : Except DezerError α :=
  match data with
  | .null => visitor.visitNull
  | .undef => visitor.visitNull
  | d => JsonDeserializer.deserializeAny d visitor

/-- JsonDeserializer.deserializeEnum (dezer-json/mod.ts): always hands a
JsonEnumAccess over the raw data to visitEnum. -/
def JsonDeserializer.deserializeEnum (_name : String) (_variants : List String)
    (data : Raw) (visitor : Visitor α) : Except DezerError α :=
  visitor.visitEnum data

/-- Index/element entries of an array starting at index i, as
Object.entries enumerates them. -/
def jsArrayEntries : List Raw → Nat → List (String × Raw)
  | [], _ => []
  | x :: rest, i => (toString i, x) :: jsArrayEntries rest (i + 1)

/-- Object.entries on an object-typed JavaScript value: the fields of a
plain object in insertion order, the index/element pairs of an array. -/
def jsObjectEntries : Raw → Option (List (String × Raw))
  | .obj fs => some fs
  | .arr xs => some (jsArrayEntries xs 0)
  | _ => none

/-- JsonEnumAccess.variant (dezer-json/mod.ts): a raw string is a data-less
variant (data slot is undefined); otherwise, when the raw value is
object-typed and non-null, its Object.entries are taken and a single entry
is returned as the variant; every remaining case throws. -/
def JsonEnumAccess.variant (data : Raw) : Except DezerError (String × Raw) :=
  match data with
  | .str s => .ok (s, .undef)
  | d =>
    match jsObjectEntries d with
    | some [(variant, payload)] => .ok (variant, payload)
    | _ => .error (.deserializationError ("Invalid enum format: " ++ jsTypeof d))

/-- YamlDeserializer.deserializeAny (YAML module): identical dispatch to
JsonDeserializer.deserializeAny. -/
def YamlDeserializer.deserializeAny (data : Raw) (visitor : Visitor α) : Except DezerError α :=
  match data with
  | .null => visitor.visitNull
  | .undef => visitor.visitNull
  | .bool b => visitor.visitBool b
  | .num n => visitor.visitNumber n
  | .str s => visitor.visitString s
  | .arr xs => visitor.visitSeq ⟨xs, 0⟩
  | .obj fs => visitor.visitMap ⟨fs, 0⟩

/-- YamlDeserializer.deserializeBool (YAML module). -/
def YamlDeserializer.deserializeBool (data : Raw) (visitor : Visitor α) : Except DezerError α :=
  match data with
  | .bool b => visitor.visitBool b
  | _ => .error (.deserializationError ("Expected boolean, found " ++ jsTypeof data))

/-- YamlDeserializer.deserializeNumber (YAML module). -/
def YamlDeserializer.deserializeNumber (data : Raw) (visitor : Visitor α) : Except DezerError α :=
  match data with
  | .num n => visitor.visitNumber n
  | _ => .error (.deserializationError ("Expected number, found " ++ jsTypeof data))

/-- YamlDeserializer.deserializeString (YAML module). -/
def YamlDeserializer.deserializeString (data : Raw) (visitor : Visitor α) : Except DezerError α :=
  match data with
  | .str s => visitor.visitString s
  | _ => .error (.deserializationError ("Expected string, found " ++ jsTypeof data))

/-- YamlDeserializer.deserializeSeq (YAML module). -/
def YamlDeserializer.deserializeSeq (data : Raw) (visitor : Visitor α) : Except DezerError α :=
  match data with
  | .arr xs => visitor.visitSeq ⟨xs, 0⟩
  | _ => .error (.deserializationError ("Expected array, found " ++ jsTypeof data))

/-- YamlDeserializer.deserializeMap (YAML module). -/
def YamlDeserializer.deserializeMap (data : Raw) (visitor : Visitor α) : Except DezerError α :=
  match data with
  | .obj fs => visitor.visitMap ⟨fs, 0⟩
  | _ => .error (.deserializationError ("Expected object, found " ++ jsTypeof data))

/-- YamlDeserializer.deserializeStruct (YAML module). -/
def YamlDeserializer.deserializeStruct (name : String) (_fields : List String)
    (data : Raw) (visitor : Visitor α) : Except DezerError α :=
  match data with
  | .obj fs => visitor.visitMap ⟨fs, 0⟩
  | _ =>
    .error (.deserializationError
      ("Expected object for struct " ++ name ++ ", found " ++ jsTypeof data))

/-- YamlDeserializer.deserializeOption (YAML module). -/
def YamlDeserializer.deserializeOption (data : Raw) (visitor : Visitor α) : Except DezerError α :=
  match data with
  | .null => visitor.visitNull
  | .undef => visitor.visitNull
  | d => YamlDeserializer.deserializeAny d visitor

/-- YamlEnumAccess.variant (YAML module): identical code to
JsonEnumAccess.variant. -/
def YamlEnumAccess.variant (data : Raw) : Except DezerError (String × Raw) :=
  match data with
  | .str s => .ok (s, .undef)
  | d =>
    match jsObjectEntries d with
    | some [(variant, payload)] => .ok (variant, payload)
    | _ => .error (.deserializationError ("Invalid enum format: " ++ jsTypeof d))

/-- One character of JSON.stringify string escaping. -/
def jsonEscapeChar (c : Char) : String :=
  if c = '"' then "\\\""
  else if c = '\\' then "\\\\"
  else if c = '\x08' then "\\b"
  else if c = '\x0c' then "\\f"
  else if c = '\n' then "\\n"
  else if c = '\r' then "\\r"
  else if c = '\t' then "\\t"
  else if c.toNat < 32 then
    "\\u00" ++ String.singleton (Nat.digitChar (c.toNat / 16)) ++
      String.singleton (Nat.digitChar (c.toNat % 16))
  else
    String.singleton c

/-- JSON.stringify rendering of a string scalar. -/
def jsonQuote (s : String) : String :=
  "\"" ++ String.join (s.toList.map jsonEscapeChar) ++ "\""

/-- JSON.stringify rendering of a number: NaN (like Infinity) renders as
null; a finite integer renders via toString. -/
def jsonRenderNum : JsNum → String
  | .nan => "null"
  | .int v => toString v

mutual

/-- JSON.stringify on the modelled value universe: undefined at the top
level yields no output, undefined inside an array renders as null,
and an object property holding undefined is dropped. -/
def jsonStringify : Raw → Option String
  | .undef => none
  | .null => some "null"
  | .bool b => some (if b then "true" else "false")
  | .num n => some (jsonRenderNum n)
  | .str s => some (jsonQuote s)
  | .arr xs => some ("[" ++ String.intercalate "," (jsonStringifyElems xs) ++ "]")
  | .obj fs => some ("\x7b" ++ String.intercalate "," (jsonStringifyFields fs) ++ "\x7d")

/-- JSON.stringify of array elements, in order. -/
def jsonStringifyElems : List Raw → List String
  | [] => []
  | x :: xs => ((jsonStringify x).getD "null") :: jsonStringifyElems xs

/-- JSON.stringify of object properties, in insertion order, dropping
properties whose value does not stringify (undefined). -/
def jsonStringifyFields : List (String × Raw) → List String
  | [] => []
  | (k, v) :: fs =>
    match jsonStringify v with
    | none => jsonStringifyFields fs
    | some rendered => (jsonQuote k ++ ":" ++ rendered) :: jsonStringifyFields fs

end

/-- JavaScript string-keyed property assignment: an existing key is
overwritten in place, a new key is appended. -/
def jsObjectAssign (fs : List (String × Raw)) (k : String) (v : Raw) : List (String × Raw) :=
  if fs.any (fun p => p.1 = k) then
    fs.map (fun p => if p.1 = k then (k, v) else p)
  else
    fs ++ [(k, v)]

/-- Accumulated state of a JsonStructSerializer (dezer-json/mod.ts): the
object built so far. -/
structure JsonStructSerializerState where
  object : List (String × Raw)

/-- JsonStructSerializer.serializeField for a field value that carries no
SERIALIZE implementation (every field of the example User is a primitive
or undefined, so the plain-assignment branch of the source is the branch
exercised): the value is assigned onto the accumulated object. -/
def JsonStructSerializer.serializeField (st : JsonStructSerializerState)
    (name : String) (value : Raw) : JsonStructSerializerState :=
  ⟨jsObjectAssign st.object name value⟩

/-- JsonStructSerializer.skipField: a no-op, the field is not added. -/
def JsonStructSerializer.skipField (st : JsonStructSerializerState)
    (_name : String) : JsonStructSerializerState :=
  st

/-- JsonStructSerializer.end: pushes the accumulated object onto the
serializer output. -/
def JsonStructSerializer.endStruct (st : JsonStructSerializerState)
    (output : List Raw) : List Raw :=
  output ++ [Raw.obj st.object]

/-- JsonSerializer.getResult (dezer-json/mod.ts): the single accumulated
value, or the whole output array when the length is not one. -/
def JsonSerializer.getResult : List Raw → Raw
  | [r] => r
  | out => .arr out

/-- A constructed User instance as the generated SERIALIZE method sees it:
name, email and password are string properties, age is an optional number
property (undefined when never assigned). password carries the Ignore
marker and is touched by no generated serializeField call. -/
structure UserSrc where
  name : String
  email : String
  age : Option JsNum
  password : String

/-- The generated User SERIALIZE method (examples/model.dezer.ts) run
against a JsonSerializer with the given output: serializeStruct("User", 3),
then serializeField calls for name, age and email_address in that order
(age reads this.age, which is undefined when unset; email_address reads
this.email), then end. -/
def userSERIALIZE (u : UserSrc) (output : List Raw) : List Raw :=
  let struct : JsonStructSerializerState := ⟨[]⟩
  let struct := JsonStructSerializer.serializeField struct "name" (.str u.name)
  let struct := JsonStructSerializer.serializeField struct "age"
    (match u.age with
     | some n => .num n
     | none => .undef)
  let struct := JsonStructSerializer.serializeField struct "email_address" (.str u.email)
  JsonStructSerializer.endStruct struct output

/-- toString of the JSON backend applied to a User value: fresh
JsonSerializer, serialize, then JSON.stringify of getResult. -/
def jsonToStringUser (u : UserSrc) : Option String :=
  jsonStringify (JsonSerializer.getResult (userSERIALIZE u []))

/-- A User instance under reconstruction: created with
Object.create(User.prototype), so every declared property starts absent
(undefined) and is only present once assigned by the visitMap loop. -/
structure UserInst where
  name : Option String
  email : Option String
  age : Option JsNum
deriving DecidableEq, Repr

/-- The while loop of the generated User visitMap
(examples/model.dezer.ts), modelled structurally over the list of entries
the freshly created map cursor will yield: the loop repeatedly pulls
nextEntry until the undefined signal, and a cursor built as
JsonMapAccess over an object yields exactly the Object.entries list in
order, then undefined forever (the cursor itself is verified separately).
For each entry: name and email_address assign through validateString (the
email field validates under path "email"), age assigns through
validateNumber only when the entry value is not undefined, and unknown
keys are ignored. Any validation failure aborts the loop at once. -/
def userVisitMapEntries (inst : UserInst) : List (String × Raw) → Except DezerError UserInst
  | [] => .ok inst
  | (k, v) :: rest =>
    if k = "name" then
      match validateString v "name" with
      | .error e => .error e
      | .ok s => userVisitMapEntries { inst with name := some s } rest
    else if k = "age" then
      match v with
      | .undef => userVisitMapEntries inst rest
      | value =>
        match validateNumber value "age" with
        | .error e => .error e
        | .ok n => userVisitMapEntries { inst with age := some n } rest
    else if k = "email_address" then
      match validateString v "email" with
      | .error e => .error e
      | .ok s => userVisitMapEntries { inst with email := some s } rest
    else
      userVisitMapEntries inst rest

/-- The visitor object the generated User DESERIALIZE passes to
deserializeStruct: visitMap runs the entry loop on a freshly created
instance; every other handler throws a plain Error. -/
def userVisitor : Visitor UserInst :=
  { expecting := "struct User"
    visitNull := .error (.genericError "Expected struct User, found null")
    visitBool := fun _ => .error (.genericError "Expected struct User, found boolean")
    visitNumber := fun _ => .error (.genericError "Expected struct User, found number")
    visitString := fun _ => .error (.genericError "Expected struct User, found string")
    visitBytes := fun _ => .error (.genericError "Expected struct User, found bytes")
    visitSeq := fun _ => .error (.genericError "Expected struct User, found sequence")
    visitMap := fun m => userVisitMapEntries ⟨none, none, none⟩ (m.entries.drop m.index)
    visitEnum := fun _ => .error (.genericError "Expected struct User, found enum") }

/-- The generated User DESERIALIZE method (examples/model.dezer.ts) run
against a JsonDeserializer holding the given raw data:
deserializeStruct("User", ["name", "age", "email_address"], visitor). -/
def userDESERIALIZE (data : Raw) : Except DezerError UserInst :=
  JsonDeserializer.deserializeStruct "User" ["name", "age", "email_address"] data userVisitor

/-- fromString of the JSON backend applied to User, after JSON.parse: a
JsonDeserializer over the parsed value, then the trait dispatch
deserialize(User, deserializer), which invokes the generated DESERIALIZE. -/
def jsonFromValueUser (data : Raw) : Except DezerError UserInst :=
  userDESERIALIZE data

/-- A value as seen by the dynamically-checked trait dispatch, for an
arbitrary serializer state type σ: either it carries the SERIALIZE symbol
(a non-null object with a SERIALIZE implementation, which mutates the
serializer state) or it is any other value, described by its raw shape. -/
inductive DynValue (σ : Type) where
  | plain : Raw → DynValue σ
  | withSerialize : (σ → σ) → DynValue σ

/-- typeof on a DynValue: a value carrying SERIALIZE is necessarily a
non-null object. -/
def jsTypeofDyn : DynValue σ → String
  | .plain r => jsTypeof r
  | .withSerialize _ => "object"

/-- isSerializable (core traits module): typeof object, non-null, and the
SERIALIZE symbol present. -/
def isSerializable : DynValue σ → Bool
  | .plain _ => false
  | .withSerialize _ => true

/-- serialize (core traits module): the statically-typed entry point,
which invokes the value SERIALIZE implementation on the serializer. -/
def serializeValue (impl : σ → σ) (s : σ) : σ :=
  impl s

/-- serializeUnknown (core traits module): runtime capability check; a
serializable value is serialized exactly as the unchecked entry point
would, anything else raises a plain Error naming the actual typeof. -/
def serializeUnknown (v : DynValue σ) (s : σ) : Except DezerError σ :=
  match v with
  | .withSerialize impl => .ok (serializeValue impl s)
  | .plain _ =>
    .error (.genericError ("Value does not implement Serialize trait: " ++ jsTypeofDyn v))

/-- A constructor as deserializeNestedObject sees it: its prototype either
carries a DESERIALIZE implementation (modelled, composed with the fresh
deserializer the source builds from the nested raw value, as a function
from that raw value) or it does not, in which case the source falls back
to Object.create(ctor.prototype) followed by Object.assign of the raw
fields, modelled by createAndAssign. -/
structure NestedCtor (α : Type) where
  deserializeImpl : Option (Raw → Except DezerError α)
  createAndAssign : List (String × Raw) → α

/-- deserializeNestedObject (dezer/src/deserializer.ts): validateObject
first; with the capability present, a fresh deserializer of the same class
is built from the nested raw value and the DESERIALIZE implementation is
invoked on it; without it, an instance is created from the prototype and
the raw properties are copied over with no further validation. -/
def deserializeNestedObject (value : Raw) (ctor : NestedCtor α)
    (fieldPath : String) : Except DezerError α := do
  let fields ← validateObject value fieldPath
  match ctor.deserializeImpl with
  | some impl => impl value
  | none => pure (ctor.createAndAssign fields)

/-- A concrete visitor used to exercise the dispatch theorems on specific
inputs: it accepts every shape and reports which handler ran. -/
def probeVisitor : Visitor Nat :=
  { expecting := "probe"
    visitNull := .ok 0
    visitBool := fun b => .ok (if b then 1 else 2)
    visitNumber := fun _ => .ok 3
    visitString := fun s => .ok s.length
    visitBytes := fun l => .ok l.length
    visitSeq := fun s => .ok s.array.length
    visitMap := fun m => .ok m.entries.length
    visitEnum := fun _ => .ok 9 }

/-- A concrete constructor without the DESERIALIZE capability, whose
prototype-copy fallback is observed directly: the instance is the copied
property list itself. -/
def probeCtorNoCap : NestedCtor (List (String × Raw)) :=
  ⟨none, fun fs => fs⟩

/-- C1 counterexample: a User value whose age is the JavaScript number NaN
fails the round trip on the JSON backend. Serialization renders the value,
but deserializing the rendering raises a ValidationError instead of
reconstructing a value equal to the original, so the round-trip property
as universally stated is false. -/
theorem C1_roundtrip_counterexample :
    jsonFromValueUser (JsonSerializer.getResult
        (userSERIALIZE ⟨"a", "b", some JsNum.nan, "pw"⟩ [])) =
      .error (.validationError "Field \x27age\x27 expected valid number, got NaN") := by
  rfl

/-- C1 (amended): for every User value whose optional age is unset or a
number other than NaN, deserializing the JSON rendering of the value
yields a value equal to the original on every declared non-skipped field
(name, email via the email_address key, and age); the Ignore-marked
password field is dropped by serialization and is not part of the
reconstructed value. -/
theorem C1_roundtrip_user_json (name email pw : String) (age : Option JsNum)
    (h : age ≠ some JsNum.nan) :
    jsonFromValueUser (JsonSerializer.getResult
        (userSERIALIZE ⟨name, email, age, pw⟩ [])) =
      .ok ⟨some name, some email, age⟩ := by
  match age with
  | none => rfl
  | some JsNum.nan => exact absurd rfl h
  | some (JsNum.int v) => rfl

/-- C1 witness: the round trip at a concrete User value. -/
theorem C1_roundtrip_user_json_witness :
    jsonFromValueUser (JsonSerializer.getResult
        (userSERIALIZE ⟨"John Doe", "john@example.com", some (JsNum.int 30), "secret"⟩ [])) =
      .ok ⟨some "John Doe", some "john@example.com", some (JsNum.int 30)⟩ :=
  C1_roundtrip_user_json "John Doe" "john@example.com" "secret"
    (some (JsNum.int 30)) (by decide)

/-- C2: deserializing a User whose age key holds a string raises a
ValidationError whose message carries the field path age and names both
the expected kind (number) and the actual kind (string); no object is
returned; and an invalid field earlier in the input aborts before age is
even examined, so errors never accumulate across fields. -/
theorem C2_failfast_validation (n s : String) (rest : List (String × Raw)) :
    userDESERIALIZE (.obj (("name", .str n) :: ("age", .str s) :: rest)) =
      .error (.validationError "Field \x27age\x27 expected number, got string")
  ∧ (∀ u : UserInst,
      userDESERIALIZE (.obj (("name", .str n) :: ("age", .str s) :: rest)) ≠ .ok u)
  ∧ (∀ (b : Bool) (rest2 : List (String × Raw)),
      userDESERIALIZE (.obj (("name", .bool b) :: ("age", .str s) :: rest2)) =
        .error (.validationError "Field \x27name\x27 expected string, got boolean")) := by
  refine ⟨rfl, fun u hu => ?_, fun b rest2 => rfl⟩
  rw [show userDESERIALIZE (.obj (("name", .str n) :: ("age", .str s) :: rest)) =
      .error (.validationError "Field \x27age\x27 expected number, got string") from rfl] at hu
  exact Except.noConfusion hu

/-- C4 counterexample: a one-element array is neither a raw string nor a
mapping, yet JsonEnumAccess.variant does not throw on it: the typeof
object test also admits arrays, whose Object.entries view has exactly one
entry, so the variant returned is the stringified index 0 paired with the
element. -/
theorem C4_enum_variant_counterexample :
    JsonEnumAccess.variant (.arr [.str "x"]) = .ok ("0", .str "x") := by
  rfl

/-- C4 (amended): variant() returns the string itself with undefined data
when the raw value is a string; returns the single entry when the raw
value is any non-null object-typed value whose Object.entries view has
exactly one entry — a one-key plain object gives that key and value, and a
one-element array gives the index string 0 and the element; every other
raw shape (null, undefined, booleans, numbers, and object-typed values
with zero or at least two entries) throws a DeserializationError whose
message is Invalid enum format followed by the typeof. The YAML
EnumAccess behaves identically. -/
theorem C4_enum_variant (s k : String) (d : Raw) (b : Bool) (n : JsNum)
    (e1 e2 : String × Raw) (es : List (String × Raw)) (x y : Raw) (ys : List Raw) :
    JsonEnumAccess.variant (.str s) = .ok (s, .undef)
  ∧ JsonEnumAccess.variant (.obj [(k, d)]) = .ok (k, d)
  ∧ JsonEnumAccess.variant (.arr [d]) = .ok ("0", d)
  ∧ JsonEnumAccess.variant .null =
      .error (.deserializationError "Invalid enum format: object")
  ∧ JsonEnumAccess.variant .undef =
      .error (.deserializationError "Invalid enum format: undefined")
  ∧ JsonEnumAccess.variant (.bool b) =
      .error (.deserializationError "Invalid enum format: boolean")
  ∧ JsonEnumAccess.variant (.num n) =
      .error (.deserializationError "Invalid enum format: number")
  ∧ JsonEnumAccess.variant (.obj []) =
      .error (.deserializationError "Invalid enum format: object")
  ∧ JsonEnumAccess.variant (.obj (e1 :: e2 :: es)) =
      .error (.deserializationError "Invalid enum format: object")
  ∧ JsonEnumAccess.variant (.arr []) =
      .error (.deserializationError "Invalid enum format: object")
  ∧ JsonEnumAccess.variant (.arr (x :: y :: ys)) =
      .error (.deserializationError "Invalid enum format: object")
  ∧ YamlEnumAccess.variant (.str s) = .ok (s, .undef)
  ∧ YamlEnumAccess.variant (.obj [(k, d)]) = .ok (k, d)
  ∧ YamlEnumAccess.variant (.arr [d]) = .ok ("0", d)
  ∧ YamlEnumAccess.variant (.bool b) =
      .error (.deserializationError "Invalid enum format: boolean")
  ∧ YamlEnumAccess.variant (.obj (e1 :: e2 :: es)) =
      .error (.deserializationError "Invalid enum format: object") := by
  refine ⟨rfl, rfl, rfl, rfl, rfl, rfl, rfl, rfl, ?_, rfl, ?_, rfl, rfl, rfl, rfl, ?_⟩
  · cases e1; cases e2; rfl
  · rfl
  · cases e1; cases e2; rfl

/-- C5 counterexample: the JSON rendering of the example User value places
the age key before the email_address key, because the generated SERIALIZE
method emits serializeField calls in the order name, age, email_address;
the text claimed by the spec, with email_address before age, is therefore
not the output. -/
theorem C5_example_text_counterexample :
    jsonToStringUser ⟨"John Doe", "john@example.com", some (JsNum.int 30), ""⟩ =
      some "\x7b\"name\":\"John Doe\",\"age\":30,\"email_address\":\"john@example.com\"\x7d"
  ∧ ("\x7b\"name\":\"John Doe\",\"age\":30,\"email_address\":\"john@example.com\"\x7d" : String) ≠
      "\x7b\"name\":\"John Doe\",\"email_address\":\"john@example.com\",\"age\":30\x7d" := by
  exact ⟨rfl, by decide⟩

/-- C5 (amended): serializing the example User value with the JSON backend
yields exactly the text with fields in the order name, age, email_address;
deserializing that same rendering (its JSON.parse image) reconstructs an
equal value; and deserializing the same input without the age key succeeds
with age unset. -/
theorem C5_example_scenario :
    jsonToStringUser ⟨"John Doe", "john@example.com", some (JsNum.int 30), ""⟩ =
      some "\x7b\"name\":\"John Doe\",\"age\":30,\"email_address\":\"john@example.com\"\x7d"
  ∧ jsonFromValueUser (.obj [("name", .str "John Doe"), ("age", .num (.int 30)),
      ("email_address", .str "john@example.com")]) =
      .ok ⟨some "John Doe", some "john@example.com", some (.int 30)⟩
  ∧ jsonFromValueUser (.obj [("name", .str "John Doe"),
      ("email_address", .str "john@example.com")]) =
      .ok ⟨some "John Doe", some "john@example.com", none⟩ :=
  ⟨rfl, rfl, rfl⟩

/-- C3: type-directed dispatch of the JSON and YAML deserializers. For
every visitor, each shape-specific method invokes exactly the matching
visit method when the raw value has the promised shape (the result is the
visitor handler applied to the payload, for an arbitrary visitor, so no
other handler can influence it), and on any other raw value returns a
DeserializationError describing expected versus found without consulting
the visitor (the error is a fixed value independent of the visitor).
deserializeAny instead dispatches on the shape of the raw value itself:
null and undefined to visitNull, booleans to visitBool, numbers to
visitNumber, strings to visitString, arrays to visitSeq and the remaining
objects to visitMap, each with a fresh cursor where applicable. -/
theorem C3_typed_dispatch {α : Type} (v : Visitor α) :
    (∀ b, JsonDeserializer.deserializeBool (.bool b) v = v.visitBool b)
  ∧ (∀ d : Raw, (∀ b, d ≠ .bool b) →
      JsonDeserializer.deserializeBool d v =
        .error (.deserializationError ("Expected boolean, found " ++ jsTypeof d)))
  ∧ (∀ n, JsonDeserializer.deserializeNumber (.num n) v = v.visitNumber n)
  ∧ (∀ d : Raw, (∀ n, d ≠ .num n) →
      JsonDeserializer.deserializeNumber d v =
        .error (.deserializationError ("Expected number, found " ++ jsTypeof d)))
  ∧ (∀ s, JsonDeserializer.deserializeString (.str s) v = v.visitString s)
  ∧ (∀ d : Raw, (∀ s, d ≠ .str s) →
      JsonDeserializer.deserializeString d v =
        .error (.deserializationError ("Expected string, found " ++ jsTypeof d)))
  ∧ (∀ xs, JsonDeserializer.deserializeSeq (.arr xs) v = v.visitSeq ⟨xs, 0⟩)
  ∧ (∀ d : Raw, (∀ xs, d ≠ .arr xs) →
      JsonDeserializer.deserializeSeq d v =
        .error (.deserializationError ("Expected array, found " ++ jsTypeof d)))
  ∧ (∀ fs, JsonDeserializer.deserializeMap (.obj fs) v = v.visitMap ⟨fs, 0⟩)
  ∧ (∀ d : Raw, (∀ fs, d ≠ .obj fs) →
      JsonDeserializer.deserializeMap d v =
        .error (.deserializationError ("Expected object, found " ++ jsTypeof d)))
  ∧ (∀ name fields fs,
      JsonDeserializer.deserializeStruct name fields (.obj fs) v = v.visitMap ⟨fs, 0⟩)
  ∧ (∀ (name : String) (fields : List String) (d : Raw), (∀ fs, d ≠ .obj fs) →
      JsonDeserializer.deserializeStruct name fields d v =
        .error (.deserializationError
          ("Expected object for struct " ++ name ++ ", found " ++ jsTypeof d)))
  ∧ JsonDeserializer.deserializeAny .null v = v.visitNull
  ∧ JsonDeserializer.deserializeAny .undef v = v.visitNull
  ∧ (∀ b, JsonDeserializer.deserializeAny (.bool b) v = v.visitBool b)
  ∧ (∀ n, JsonDeserializer.deserializeAny (.num n) v = v.visitNumber n)
  ∧ (∀ s, JsonDeserializer.deserializeAny (.str s) v = v.visitString s)
  ∧ (∀ xs, JsonDeserializer.deserializeAny (.arr xs) v = v.visitSeq ⟨xs, 0⟩)
  ∧ (∀ fs, JsonDeserializer.deserializeAny (.obj fs) v = v.visitMap ⟨fs, 0⟩)
  ∧ (∀ b, YamlDeserializer.deserializeBool (.bool b) v = v.visitBool b)
  ∧ (∀ d : Raw, (∀ b, d ≠ .bool b) →
      YamlDeserializer.deserializeBool d v =
        .error (.deserializationError ("Expected boolean, found " ++ jsTypeof d)))
  ∧ (∀ n, YamlDeserializer.deserializeNumber (.num n) v = v.visitNumber n)
  ∧ (∀ d : Raw, (∀ n, d ≠ .num n) →
      YamlDeserializer.deserializeNumber d v =
        .error (.deserializationError ("Expected number, found " ++ jsTypeof d)))
  ∧ (∀ s, YamlDeserializer.deserializeString (.str s) v = v.visitString s)
  ∧ (∀ d : Raw, (∀ s, d ≠ .str s) →
      YamlDeserializer.deserializeString d v =
        .error (.deserializationError ("Expected string, found " ++ jsTypeof d)))
  ∧ (∀ xs, YamlDeserializer.deserializeSeq (.arr xs) v = v.visitSeq ⟨xs, 0⟩)
  ∧ (∀ d : Raw, (∀ xs, d ≠ .arr xs) →
      YamlDeserializer.deserializeSeq d v =
        .error (.deserializationError ("Expected array, found " ++ jsTypeof d)))
  ∧ (∀ fs, YamlDeserializer.deserializeMap (.obj fs) v = v.visitMap ⟨fs, 0⟩)
  ∧ (∀ d : Raw, (∀ fs, d ≠ .obj fs) →
      YamlDeserializer.deserializeMap d v =
        .error (.deserializationError ("Expected object, found " ++ jsTypeof d)))
  ∧ (∀ name fields fs,
      YamlDeserializer.deserializeStruct name fields (.obj fs) v = v.visitMap ⟨fs, 0⟩)
  ∧ (∀ (name : String) (fields : List String) (d : Raw), (∀ fs, d ≠ .obj fs) →
      YamlDeserializer.deserializeStruct name fields d v =
        .error (.deserializationError
          ("Expected object for struct " ++ name ++ ", found " ++ jsTypeof d)))
  ∧ (∀ xs, YamlDeserializer.deserializeAny (.arr xs) v = v.visitSeq ⟨xs, 0⟩)
  ∧ (∀ fs, YamlDeserializer.deserializeAny (.obj fs) v = v.visitMap ⟨fs, 0⟩) := by
  refine ⟨fun b => rfl, ?_, fun n => rfl, ?_, fun s => rfl, ?_, fun xs => rfl, ?_,
    fun fs => rfl, ?_, fun name fields fs => rfl, ?_,
    rfl, rfl, fun b => rfl, fun n => rfl, fun s => rfl, fun xs => rfl, fun fs => rfl,
    fun b => rfl, ?_, fun n => rfl, ?_, fun s => rfl, ?_, fun xs => rfl, ?_,
    fun fs => rfl, ?_, fun name fields fs => rfl, ?_,
    fun xs => rfl, fun fs => rfl⟩
  · intro d hd
    cases d <;> first | rfl | exact absurd rfl (hd _)
  · intro d hd
    cases d <;> first | rfl | exact absurd rfl (hd _)
  · intro d hd
    cases d <;> first | rfl | exact absurd rfl (hd _)
  · intro d hd
    cases d <;> first | rfl | exact absurd rfl (hd _)
  · intro d hd
    cases d <;> first | rfl | exact absurd rfl (hd _)
  · intro name fields d hd
    cases d <;> first | rfl | exact absurd rfl (hd _)
  · intro d hd
    cases d <;> first | rfl | exact absurd rfl (hd _)
  · intro d hd
    cases d <;> first | rfl | exact absurd rfl (hd _)
  · intro d hd
    cases d <;> first | rfl | exact absurd rfl (hd _)
  · intro d hd
    cases d <;> first | rfl | exact absurd rfl (hd _)
  · intro d hd
    cases d <;> first | rfl | exact absurd rfl (hd _)
  · intro name fields d hd
    cases d <;> first | rfl | exact absurd rfl (hd _)

/-- C3 witness: dispatch observed on concrete inputs with a concrete
visitor — a mismatched raw value produces the descriptive error, a
matching one reaches the matching handler. -/
theorem C3_typed_dispatch_witness :
    JsonDeserializer.deserializeBool (.str "x") probeVisitor =
      .error (.deserializationError "Expected boolean, found string")
  ∧ JsonDeserializer.deserializeBool (.bool true) probeVisitor = .ok 1 :=
  ⟨(C3_typed_dispatch probeVisitor).2.1 (.str "x") (fun _ h => nomatch h),
   (C3_typed_dispatch probeVisitor).1 true⟩

/-- C6 counterexample: serializeUnknown on a value without the Serialize
capability throws the plain JavaScript Error class — its message does name
the actual type, but the error is not an instance of the
SerializationError class the claim requires. -/
theorem C6_serializeUnknown_counterexample :
    serializeUnknown (DynValue.plain (.num (.int 42)) : DynValue Unit) () =
      .error (.genericError "Value does not implement Serialize trait: number")
  ∧ DezerError.isSerializationError
      (.genericError "Value does not implement Serialize trait: number") = false :=
  ⟨rfl, rfl⟩

/-- C6 (amended): for every value that does not implement the Serialize
capability, serializeUnknown fails with a plain Error (not a
SerializationError) whose message names the actual typeof of the value,
and never returns a serializer result (the SERIALIZE implementation is
never invoked, the error being raised before any call); for every value
that does implement the capability it invokes the SERIALIZE
implementation on the serializer exactly as the unchecked serialize entry
point does. -/
theorem C6_serializeUnknown {σ : Type} (s : σ) :
    (∀ v : DynValue σ, isSerializable v = false →
      serializeUnknown v s =
        .error (.genericError ("Value does not implement Serialize trait: " ++ jsTypeofDyn v))
      ∧ (∀ e, serializeUnknown v s = .error e → e.isSerializationError = false)
      ∧ (∀ t : σ, serializeUnknown v s ≠ .ok t))
  ∧ (∀ impl : σ → σ,
      serializeUnknown (DynValue.withSerialize impl) s = .ok (serializeValue impl s)) := by
  refine ⟨fun v hv => ?_, fun impl => rfl⟩
  match v with
  | .withSerialize impl => simp [isSerializable] at hv
  | .plain r =>
    refine ⟨rfl, fun e he => ?_, fun t ht => Except.noConfusion ht⟩
    rw [show serializeUnknown (DynValue.plain r) s =
        .error (.genericError ("Value does not implement Serialize trait: " ++ jsTypeofDyn
          (DynValue.plain r : DynValue σ))) from rfl] at he
    cases he
    rfl

/-- C6 witness: serializeUnknown at a concrete non-serializable value. -/
theorem C6_serializeUnknown_witness :
    serializeUnknown (DynValue.plain (.str "x") : DynValue Nat) 0 =
      .error (.genericError "Value does not implement Serialize trait: string") :=
  ((C6_serializeUnknown 0).1 (DynValue.plain (.str "x")) rfl).1

/-- C7 counterexample: an input object whose age key explicitly holds null
makes User deserialization raise a ValidationError (typeof null is
object), rather than leaving the optional field unset: only an absent or
undefined age is skipped by the generated guard. -/
theorem C7_option_null_counterexample :
    userDESERIALIZE (.obj [("name", .str "Ann"), ("age", .null),
        ("email_address", .str "a@b")]) =
      .error (.validationError "Field \x27age\x27 expected number, got object") := by
  rfl

/-- C7 (amended): deserializeOption invokes visitNull exactly when the raw
value is null or undefined and for any present value defers to
deserializeAny, dispatching on the shape of the value itself; an optional
field whose key is absent from the input, or present with value undefined,
is left unset by the generated User deserializer; but a key explicitly
holding null raises a ValidationError, since the generated guard only
skips undefined. -/
theorem C7_option_semantics {α : Type} (v : Visitor α) :
    JsonDeserializer.deserializeOption .null v = v.visitNull
  ∧ JsonDeserializer.deserializeOption .undef v = v.visitNull
  ∧ (∀ d : Raw, d ≠ .null → d ≠ .undef →
      JsonDeserializer.deserializeOption d v = JsonDeserializer.deserializeAny d v)
  ∧ (∀ n e : String,
      userDESERIALIZE (.obj [("name", .str n), ("email_address", .str e)]) =
        .ok ⟨some n, some e, none⟩)
  ∧ (∀ n e : String,
      userDESERIALIZE (.obj [("name", .str n), ("age", .undef),
          ("email_address", .str e)]) =
        .ok ⟨some n, some e, none⟩) := by
  refine ⟨rfl, rfl, fun d h1 h2 => ?_, fun n e => rfl, fun n e => rfl⟩
  cases d
  · exact absurd rfl h2
  · exact absurd rfl h1
  all_goals rfl

/-- C7 witness: deserializeOption defers to deserializeAny on a present
value. -/
theorem C7_option_semantics_witness :
    JsonDeserializer.deserializeOption (.bool true) probeVisitor =
      JsonDeserializer.deserializeAny (.bool true) probeVisitor :=
  (C7_option_semantics probeVisitor).2.2.1 (.bool true)
    (fun h => nomatch h) (fun h => nomatch h)

/-- Helper: the element loop of validateStringArray, started at any index,
fails at the first non-string element with the path suffix carrying the
absolute index of that element. -/
theorem checkStringElems_first_failure (path : String) (x : Raw) (post : List Raw)
    (hx : ∀ s, x ≠ Raw.str s) :
    ∀ (pre : List Raw) (i : Nat), (∀ y ∈ pre, ∃ s, y = Raw.str s) →
      checkStringElems path (pre ++ x :: post) i =
        .error (.validationError
          ("Field \x27" ++ path ++ "[" ++ toString (i + pre.length) ++ "]\x27 expected string, got "
            ++ jsTypeof x)) := by
  intro pre
  induction pre with
  | nil =>
    intro i _
    simp only [List.nil_append, List.length_nil, Nat.add_zero]
    cases x
    case str s => exact absurd rfl (hx s)
    all_goals rfl
  | cons y pre ih =>
    intro i hpre
    obtain ⟨s, rfl⟩ := hpre y (List.mem_cons_self y pre)
    have hpre2 : ∀ y2 ∈ pre, ∃ s2, y2 = Raw.str s2 :=
      fun y2 hy2 => hpre y2 (List.mem_cons_of_mem _ hy2)
    simp only [List.length_cons]
    rw [show checkStringElems path ((Raw.str s :: pre) ++ x :: post) i =
        checkStringElems path (pre ++ x :: post) (i + 1) from rfl]
    rw [ih (i + 1) hpre2]
    have harith : i + 1 + pre.length = i + (pre.length + 1) := by omega
    rw [harith]

/-- C8: validating the array with elements ok and 123 under field path
tags raises a ValidationError whose path is exactly tags index 1; and in
general, when every element before position i is a string and the element
at position i is not, validateStringArray fails with the field path
extended by the bracketed index i and a message naming expected string and
the actual typeof of that element. -/
theorem C8_array_element_path :
    validateStringArray (.arr [.str "ok", .num (.int 123)]) "tags" =
      .error (.validationError "Field \x27tags[1]\x27 expected string, got number")
  ∧ (∀ (path : String) (pre : List Raw) (x : Raw) (post : List Raw),
      (∀ y ∈ pre, ∃ s, y = Raw.str s) → (∀ s, x ≠ Raw.str s) →
      validateStringArray (.arr (pre ++ x :: post)) path =
        .error (.validationError
          ("Field \x27" ++ path ++ "[" ++ toString pre.length ++ "]\x27 expected string, got "
            ++ jsTypeof x))) := by
  refine ⟨rfl, fun path pre x post hpre hx => ?_⟩
  have h := checkStringElems_first_failure path x post hx pre 0 hpre
  rw [Nat.zero_add] at h
  rw [show validateStringArray (.arr (pre ++ x :: post)) path =
      Except.bind (checkStringElems path (pre ++ x :: post) 0)
        (fun _ => Except.ok (pre ++ x :: post)) from rfl]
  rw [h]
  rfl

/-- C8 witness: the general element-path statement applied to the concrete
tags array. -/
theorem C8_array_element_path_witness :
    validateStringArray (.arr [.str "ok", .num (.int 123)]) "tags" =
      .error (.validationError "Field \x27tags[1]\x27 expected string, got number") :=
  C8_array_element_path.2 "tags" [.str "ok"] (.num (.int 123)) []
    (fun y hy => ⟨"ok", by simpa using hy⟩)
    (fun s h => nomatch h)

/-- Helper: an exhausted JSON sequence cursor returns the no-more signal
without moving, so its state is a fixed point. -/
theorem jsonSeq_exhausted_fixed (s : SeqAccessState)
    (h : (JsonSeqAccess.nextElement s).1 = none) :
    JsonSeqAccess.nextElement s = (none, s) := by
  by_cases hge : s.index ≥ s.array.length
  · simp [JsonSeqAccess.nextElement, hge]
  · have hlt : s.index < s.array.length := Nat.lt_of_not_le hge
    simp [JsonSeqAccess.nextElement, hge, List.getElem?_eq_getElem hlt] at h

/-- Helper: an exhausted JSON map cursor is a fixed point. -/
theorem jsonMap_exhausted_fixed (m : MapAccessState)
    (h : (JsonMapAccess.nextEntry m).1 = none) :
    JsonMapAccess.nextEntry m = (none, m) := by
  by_cases hge : m.index ≥ m.entries.length
  · simp [JsonMapAccess.nextEntry, hge]
  · have hlt : m.index < m.entries.length := Nat.lt_of_not_le hge
    simp [JsonMapAccess.nextEntry, hge, List.getElem?_eq_getElem hlt] at h

/-- Helper: an exhausted YAML sequence cursor is a fixed point. -/
theorem yamlSeq_exhausted_fixed (s : SeqAccessState)
    (h : (YamlSeqAccess.nextElement s).1 = none) :
    YamlSeqAccess.nextElement s = (none, s) := by
  by_cases hge : s.index ≥ s.array.length
  · simp [YamlSeqAccess.nextElement, hge]
  · have hlt : s.index < s.array.length := Nat.lt_of_not_le hge
    simp [YamlSeqAccess.nextElement, hge, List.getElem?_eq_getElem hlt] at h

/-- Helper: an exhausted YAML map cursor is a fixed point. -/
theorem yamlMap_exhausted_fixed (m : MapAccessState)
    (h : (YamlMapAccess.nextEntry m).1 = none) :
    YamlMapAccess.nextEntry m = (none, m) := by
  by_cases hge : m.index ≥ m.entries.length
  · simp [YamlMapAccess.nextEntry, hge]
  · have hlt : m.index < m.entries.length := Nat.lt_of_not_le hge
    simp [YamlMapAccess.nextEntry, hge, List.getElem?_eq_getElem hlt] at h

/-- C9: once a sequence or map cursor of either backend has returned the
no-more signal (undefined), every later call — after any number of further
nextElement/nextEntry advances — still returns the no-more signal: an
exhausted cursor never yields a further element or entry. -/
theorem C9_cursor_exhaustion :
    (∀ s : SeqAccessState, (JsonSeqAccess.nextElement s).1 = none →
      ∀ n : Nat,
        (JsonSeqAccess.nextElement
          ((fun t => (JsonSeqAccess.nextElement t).2)^[n] s)).1 = none)
  ∧ (∀ m : MapAccessState, (JsonMapAccess.nextEntry m).1 = none →
      ∀ n : Nat,
        (JsonMapAccess.nextEntry
          ((fun t => (JsonMapAccess.nextEntry t).2)^[n] m)).1 = none)
  ∧ (∀ s : SeqAccessState, (YamlSeqAccess.nextElement s).1 = none →
      ∀ n : Nat,
        (YamlSeqAccess.nextElement
          ((fun t => (YamlSeqAccess.nextElement t).2)^[n] s)).1 = none)
  ∧ (∀ m : MapAccessState, (YamlMapAccess.nextEntry m).1 = none →
      ∀ n : Nat,
        (YamlMapAccess.nextEntry
          ((fun t => (YamlMapAccess.nextEntry t).2)^[n] m)).1 = none) := by
  refine ⟨fun s h n => ?_, fun m h n => ?_, fun s h n => ?_, fun m h n => ?_⟩
  · induction n with
    | zero => simpa using h
    | succ k ih =>
      rw [Function.iterate_succ_apply]
      have hs : (JsonSeqAccess.nextElement s).2 = s := by
        rw [jsonSeq_exhausted_fixed s h]
      rw [hs]
      exact ih
  · induction n with
    | zero => simpa using h
    | succ k ih =>
      rw [Function.iterate_succ_apply]
      have hs : (JsonMapAccess.nextEntry m).2 = m := by
        rw [jsonMap_exhausted_fixed m h]
      rw [hs]
      exact ih
  · induction n with
    | zero => simpa using h
    | succ k ih =>
      rw [Function.iterate_succ_apply]
      have hs : (YamlSeqAccess.nextElement s).2 = s := by
        rw [yamlSeq_exhausted_fixed s h]
      rw [hs]
      exact ih
  · induction n with
    | zero => simpa using h
    | succ k ih =>
      rw [Function.iterate_succ_apply]
      have hs : (YamlMapAccess.nextEntry m).2 = m := by
        rw [yamlMap_exhausted_fixed m h]
      rw [hs]
      exact ih

/-- C9 witness: a concrete exhausted sequence cursor still signals no-more
after two further advances. -/
theorem C9_cursor_exhaustion_witness :
    (JsonSeqAccess.nextElement
      ((fun t => (JsonSeqAccess.nextElement t).2)^[2] ⟨[], 0⟩)).1 = none :=
  C9_cursor_exhaustion.1 ⟨[], 0⟩ rfl 2

/-- C10: deserializeNestedObject first requires the raw value to be
object-shaped, raising a ValidationError carrying the field path
otherwise; with no DESERIALIZE capability on the constructor prototype it
silently builds an instance from the prototype and copies the raw
properties onto it, with no per-field validation and no error; with the
capability present it recurses through the DESERIALIZE implementation over
a fresh deserializer built from the nested raw value. -/
theorem C10_nested_object {α : Type} (ctor : NestedCtor α) (fieldPath : String) :
    (∀ value : Raw, (∀ fs, value ≠ .obj fs) →
      deserializeNestedObject value ctor fieldPath =
        .error (.validationError
          ("Field \x27" ++ fieldPath ++ "\x27 expected object, got " ++ jsTypeof value)))
  ∧ (∀ fs, ctor.deserializeImpl = none →
      deserializeNestedObject (.obj fs) ctor fieldPath = .ok (ctor.createAndAssign fs))
  ∧ (∀ fs impl, ctor.deserializeImpl = some impl →
      deserializeNestedObject (.obj fs) ctor fieldPath = impl (.obj fs)) := by
  obtain ⟨di, ca⟩ := ctor
  refine ⟨fun value hv => ?_, fun fs h => ?_, fun fs impl h => ?_⟩
  · cases value <;> first | rfl | exact absurd rfl (hv _)
  · cases di with
    | none => rfl
    | some impl2 => exact Option.noConfusion h
  · cases di with
    | none => exact Option.noConfusion h
    | some impl2 =>
      cases Option.some.inj h
      rfl

/-- C10 witness: the capability-free fallback copies raw properties
verbatim, and a non-object nested value fails with the field path. -/
theorem C10_nested_object_witness :
    deserializeNestedObject (.obj [("a", .null)]) probeCtorNoCap "p" = .ok [("a", .null)]
  ∧ deserializeNestedObject .null probeCtorNoCap "p" =
      .error (.validationError "Field \x27p\x27 expected object, got object") :=
  ⟨(C10_nested_object probeCtorNoCap "p").2.1 [("a", .null)] rfl,
   (C10_nested_object probeCtorNoCap "p").1 .null (fun _ h => nomatch h)⟩
